import Mathlib

/-!
Verification of the gcs-sync fetcher (src/fetch_pubsub_files.py).

The program subscribes to a pub/sub subscription for a bounded window,
downloads every object named by a well-formed message into a destination
directory, acknowledges every message, and finally uploads its log file to
the bucket when at least one file was fetched.

The embedding below models the program's own control flow faithfully.
External library calls (UTF-8/JSON decoding by json.loads, the blob
download, the blob upload) are oracles: a message carries the outcome of
decoding its payload, and an environment records which downloads and
uploads succeed.  A raised-and-caught exception is a branch; an exception
the program does not catch surfaces as an error result of the whole run.
-/

namespace GcsFetcher

/-- A decoded JSON value, as produced by Python's json.loads.  Numbers are
modelled as integers; only truthiness of a number is ever consulted. -/
inductive Json where
  | null : Json
  | bool : Bool → Json
  | num : Int → Json
  | str : String → Json
  | arr : List Json → Json
  | obj : List (String × Json) → Json

/-- Python truthiness, as used by the guard `if file_name:`. -/
def truthy : Json → Bool
  | Json.null => false
  | Json.bool b => b
  | Json.num n => if n = 0 then false else true
  | Json.str s => if s = "" then false else true
  | Json.arr [] => false
  | Json.arr (_ :: _) => true
  | Json.obj [] => false
  | Json.obj (_ :: _) => true

/-- Truthiness of the result of dict.get: Python None (absent key) is falsy. -/
def truthyOpt : Option Json → Bool
  | none => false
  | some v => truthy v

/-- Python dict lookup for an association list built by json.loads: a later
binding of the same key overwrites an earlier one, and dict.get returns
None when the key is absent. -/
def objGet (fields : List (String × Json)) (key : String) : Option Json :=
  List.foldl (fun a p => if p.1 = key then some p.2 else a) none fields

/-- The attribute access data.get(key): defined only on a JSON object;
on any other value Python raises AttributeError, modelled as an error. -/
def jsonGetAttr : Json → String → Except Unit (Option Json)
  | Json.obj fields, key => Except.ok (objGet fields key)
  | _, _ => Except.error ()

/-- os.path.basename on a POSIX path: the segment after the last slash. -/
def basename (p : String) : String :=
  (p.splitOn "/").getLastD p

/-- os.path.join for two POSIX path components. -/
def joinPath (a b : String) : String :=
  if b.startsWith "/" then b
  else if a = "" then b
  else if a.endsWith "/" then a ++ b
  else a ++ "/" ++ b

/-- The configuration record loaded from config.json. -/
structure Config where
  service_account_path : String
  gcs_bucket_name : String
  pubsub_subscription : String
  destination_path : String

/-- A pub/sub message.  The payload field is the outcome of
json.loads(message.data.decode('utf-8')): none when decoding or parsing
raises, some j when it yields the JSON value j. -/
structure Message where
  payload : Option Json

/-- The external-service oracle: which blob downloads and which blob
uploads succeed (by bucket name and blob name). -/
structure Env where
  downloadOk : String → String → Bool
  uploadOk : String → String → Bool

/-- Local filesystem state: the directories and files that exist. -/
structure FState where
  dirs : List String
  files : List String
deriving DecidableEq

/-- os.makedirs(d, exist_ok=True): ensure directory d exists; files are
untouched. -/
def makedirs (d : String) (fs : FState) : FState :=
  { fs with dirs := if d ∈ fs.dirs then fs.dirs else d :: fs.dirs }

/-- State threaded through the fetch loop: the files_fetched list, the
filesystem, and instrumentation counters for logger.error calls, calls to
message.ack(), and entries into download_file. -/
structure HMState where
  filesFetched : List String
  fs : FState
  errorLogs : Nat
  acks : Nat
  downloadAttempts : Nat
deriving DecidableEq

/-- download_file(bucket_name, blob_name, destination_path, ...): resolve
the local path as destination_path joined with the basename of the blob
name, ensure the destination directory exists, then download.  Returns the
filesystem after the call together with true on success; false stands for
blob.download_to_filename raising (the directory was already created). -/
def download_file (bucket_name blob_name destination_path : String)
    (env : Env) (fs : FState) : FState × Bool :=
  let file_name := basename blob_name
  let destination_file := joinPath destination_path file_name
  let fs1 := makedirs destination_path fs
  if env.downloadOk bucket_name blob_name then
    ({ fs1 with files := destination_file :: fs1.files }, true)
  else
    (fs1, false)

/-- handle_message(message, ...): inside a try block, decode the payload,
read data.get('name'), and when that value is truthy download the object
and append its key to files_fetched; any exception is caught and logged.
After the try/except, message.ack() runs unconditionally.  A truthy
non-string name makes the google client library raise before any
filesystem effect; that exception is caught like the others. -/
def handle_message (msg : Message) (config : Config) (env : Env)
    (s : HMState) : HMState :=
  let s1 :=
    match msg.payload with
    | none => { s with errorLogs := s.errorLogs + 1 }
    | some data =>
      match jsonGetAttr data "name" with
      | Except.error _ => { s with errorLogs := s.errorLogs + 1 }
      | Except.ok file_name =>
        if truthyOpt file_name then
          match file_name with
          | some (Json.str fname) =>
            let res := download_file config.gcs_bucket_name fname
                config.destination_path env s.fs
            if res.2 then
              { s with fs := res.1,
                       downloadAttempts := s.downloadAttempts + 1,
                       filesFetched := s.filesFetched ++ [fname] }
            else
              { s with fs := res.1,
                       downloadAttempts := s.downloadAttempts + 1,
                       errorLogs := s.errorLogs + 1 }
          | _ =>
            { s with downloadAttempts := s.downloadAttempts + 1,
                     errorLogs := s.errorLogs + 1 }
        else s
  { s1 with acks := s1.acks + 1 }

/-- The state at the start of fetch_messages: files_fetched = [] and no
events counted yet, over the ambient filesystem. -/
def initState (fs : FState) : HMState :=
  { filesFetched := [], fs := fs, errorLogs := 0, acks := 0,
    downloadAttempts := 0 }

/-- fetch_messages: subscribe and run the callback on each message
delivered during the listening window (the list msgs), starting from an
empty files_fetched list; the whole resulting state is returned (the
program returns its filesFetched component). -/
def fetch_messages (subscription : String) (timeout : Nat)
    (msgs : List Message) (config : Config) (env : Env)
    (fs : FState) : HMState :=
  let _ := subscription
  let _ := timeout
  msgs.foldl (fun s m => handle_message m config env s) (initState fs)

/-- upload_log_to_gcs(log_path, bucket_name, ...): compute the blob name
logs/gcs-fetcher-script/<basename of log_path> and upload the log file.
blob.upload_from_filename raising is the error case; nothing in the
function catches it. -/
def upload_log_to_gcs (log_path bucket_name : String) (env : Env) :
    Except Unit String :=
  let log_blob_name := "logs/gcs-fetcher-script/" ++ basename log_path
  if env.uploadOk bucket_name log_blob_name then Except.ok log_blob_name
  else Except.error ()

/-- Outcome of one run of the __main__ block: the fetch-loop state, whether
upload_log_to_gcs was invoked, and whether the process exits normally
(false exactly when an exception escapes the main block uncaught). -/
structure RunResult where
  fetched : HMState
  uploadAttempted : Bool
  exitOk : Bool
deriving DecidableEq

/-- The __main__ block after bootstrap: run fetch_messages with a
15-second window, then upload the log if and only if files_fetched is
non-empty (Python list truthiness).  upload_log_to_gcs is called outside
any try block, so its failure escapes as an uncaught exception. -/
def mainRun (msgs : List Message) (config : Config) (env : Env)
    (fs : FState) (log_path : String) : RunResult :=
  let files_fetched := fetch_messages config.pubsub_subscription 15 msgs
      config env fs
  if files_fetched.filesFetched.isEmpty then
    { fetched := files_fetched, uploadAttempted := false, exitOk := true }
  else
    match upload_log_to_gcs log_path config.gcs_bucket_name env with
    | Except.ok _ =>
      { fetched := files_fetched, uploadAttempted := true, exitOk := true }
    | Except.error _ =>
      { fetched := files_fetched, uploadAttempted := true, exitOk := false }

/-! Concrete fixtures used by witnesses and counterexamples. -/

/-- A sample configuration. -/
def cfgEx : Config :=
  { service_account_path := "sa.json", gcs_bucket_name := "bkt",
    pubsub_subscription := "sub", destination_path := "/data" }

/-- An environment where every download and upload succeeds. -/
def envAllOk : Env :=
  { downloadOk := fun _ _ => true, uploadOk := fun _ _ => true }

/-- An environment where downloads succeed but every upload raises. -/
def envNoUpload : Env :=
  { downloadOk := fun _ _ => true, uploadOk := fun _ _ => false }

/-- An environment where every download raises. -/
def envNoDownload : Env :=
  { downloadOk := fun _ _ => false, uploadOk := fun _ _ => true }

/-- An empty local filesystem. -/
def fs0 : FState := { dirs := [], files := [] }

/-- The loop state at the start of a run over the empty filesystem. -/
def s0 : HMState := initState fs0

/-- The spec's example message: payload JSON object with name inbox/report.csv. -/
def msgReport : Message :=
  Message.mk (some (Json.obj [("name", Json.str "inbox/report.csv")]))

/-! Helper lemmas. -/

/-- Folding the dict-lookup step over bindings none of which carry the key
leaves the accumulator unchanged. -/
theorem objGet_foldl_id (key : String) (fields : List (String × Json))
    (acc : Option Json) (h : ∀ p ∈ fields, p.1 ≠ key) :
    List.foldl (fun a p => if p.1 = key then some p.2 else a) acc fields
      = acc := by
  induction fields generalizing acc with
  | nil => rfl
  | cons q t ih =>
    have hq : q.1 ≠ key := h q (List.mem_cons_self q t)
    simp only [List.foldl_cons, if_neg hq]
    exact ih acc (fun p hp => h p (List.mem_cons_of_mem q hp))

/-- dict.get returns None when no binding carries the key. -/
theorem objGet_eq_none (fields : List (String × Json)) (key : String)
    (h : ∀ p ∈ fields, p.1 ≠ key) : objGet fields key = none :=
  objGet_foldl_id key fields none h

/-! Claim theorems. -/

/-- C1: a message whose payload is a JSON object binding name to a
non-empty string key, in an environment where downloading that key from
the configured bucket succeeds, makes fetch_messages return exactly that
key in files_fetched, with a local file at destination_path joined with
the basename of the key. -/
theorem fetch_messages_valid_name_downloads
    (subscription : String) (timeout : Nat) (key : String)
    (config : Config) (env : Env) (fs : FState)
    (hkey : key ≠ "")
    (hdl : env.downloadOk config.gcs_bucket_name key = true) :
    (fetch_messages subscription timeout
        [Message.mk (some (Json.obj [("name", Json.str key)]))]
        config env fs).filesFetched = [key] ∧
    joinPath config.destination_path (basename key)
      ∈ (fetch_messages subscription timeout
          [Message.mk (some (Json.obj [("name", Json.str key)]))]
          config env fs).fs.files := by
  constructor <;>
  · simp only [fetch_messages, List.foldl, handle_message, initState,
      jsonGetAttr, objGet, truthyOpt, truthy, download_file, makedirs]
    simp [hkey, hdl]

/-- C1 witness: the spec's example, key inbox/report.csv, lands at
/data/report.csv and is the only fetched key. -/
theorem fetch_messages_valid_name_downloads_witness :
    (fetch_messages "sub" 15
        [Message.mk (some (Json.obj [("name", Json.str "inbox/report.csv")]))]
        cfgEx envAllOk fs0).filesFetched = ["inbox/report.csv"] ∧
    joinPath cfgEx.destination_path (basename "inbox/report.csv")
      ∈ (fetch_messages "sub" 15
          [Message.mk (some (Json.obj [("name", Json.str "inbox/report.csv")]))]
          cfgEx envAllOk fs0).fs.files :=
  fetch_messages_valid_name_downloads "sub" 15 "inbox/report.csv"
    cfgEx envAllOk fs0 (by decide) rfl

/-- C2: handle_message calls message.ack() exactly once on every control
path: success, missing name, and every caught exception. -/
theorem handle_message_acks_exactly_once (msg : Message) (config : Config)
    (env : Env) (s : HMState) :
    (handle_message msg config env s).acks = s.acks + 1 := by
  rcases msg with ⟨payload⟩
  cases payload with
  | none => rfl
  | some data =>
    unfold handle_message
    dsimp only
    cases hg : jsonGetAttr data "name" with
    | error e => rfl
    | ok fn =>
      dsimp only
      by_cases ht : truthyOpt fn = true
      · rw [if_pos ht]
        cases fn with
        | none => rfl
        | some v =>
          cases v with
          | null => rfl
          | bool b => rfl
          | num n => rfl
          | str fname => dsimp only; split <;> rfl
          | arr xs => rfl
          | obj fields => rfl
      · rw [if_neg ht]

/-- C3 counterexample: on a run that fetches a file with an environment
where the log upload raises, the main block invokes the upload and the
exception escapes uncaught — the process does not exit normally with
status zero, contradicting the claim. -/
theorem upload_failure_exits_nonzero_cex :
    (mainRun [msgReport] cfgEx envNoUpload fs0
        "/root/tmp/gcs-fetcher-20250101-000000.log").uploadAttempted = true ∧
    (mainRun [msgReport] cfgEx envNoUpload fs0
        "/root/tmp/gcs-fetcher-20250101-000000.log").exitOk = false := by
  constructor <;> rfl

/-- C3 amended: when the fetched list is non-empty and the log upload
fails, the failure propagates out of the main block uncaught and the
process does not exit normally (non-zero status); nothing in main catches
or logs it. -/
theorem upload_failure_propagates (msgs : List Message) (config : Config)
    (env : Env) (fs : FState) (log_path : String)
    (hne : (fetch_messages config.pubsub_subscription 15 msgs config env
        fs).filesFetched.isEmpty = false)
    (hup : upload_log_to_gcs log_path config.gcs_bucket_name env
        = Except.error ()) :
    (mainRun msgs config env fs log_path).exitOk = false ∧
    (mainRun msgs config env fs log_path).uploadAttempted = true := by
  unfold mainRun
  dsimp only
  rw [hne, hup]
  exact ⟨rfl, rfl⟩

/-- C3 amended, witness: a concrete fetching run whose upload fails ends
with exitOk false. -/
theorem upload_failure_propagates_witness :
    (mainRun [msgReport] cfgEx envNoUpload fs0 "x.log").exitOk = false ∧
    (mainRun [msgReport] cfgEx envNoUpload fs0 "x.log").uploadAttempted
      = true :=
  upload_failure_propagates [msgReport] cfgEx envNoUpload fs0 "x.log"
    rfl rfl

/-- C4: the log upload is invoked if and only if the list of fetched
files returned by the listen window is non-empty (variant A). -/
theorem upload_iff_fetched_nonempty (msgs : List Message) (config : Config)
    (env : Env) (fs : FState) (log_path : String) :
    (mainRun msgs config env fs log_path).uploadAttempted = true ↔
    (fetch_messages config.pubsub_subscription 15 msgs config env
        fs).filesFetched ≠ [] := by
  unfold mainRun
  dsimp only
  cases hfe : (fetch_messages config.pubsub_subscription 15 msgs config
      env fs).filesFetched with
  | nil => simp
  | cons a t =>
    cases hu : upload_log_to_gcs log_path config.gcs_bucket_name env <;>
      simp

/-- C5: a message whose payload does not decode as UTF-8 JSON leaves the
fetched list, filesystem and download count unchanged, logs one error,
acknowledges the message, and does not raise; folding the loop over it
continues with the remaining messages from that state. -/
theorem unparsable_payload_logged_acked (config : Config) (env : Env)
    (s : HMState) (rest : List Message) :
    handle_message (Message.mk none) config env s
      = { s with errorLogs := s.errorLogs + 1, acks := s.acks + 1 } ∧
    List.foldl (fun t m => handle_message m config env t) s
        (Message.mk none :: rest)
      = List.foldl (fun t m => handle_message m config env t)
          (handle_message (Message.mk none) config env s) rest :=
  ⟨rfl, rfl⟩

/-- C6: a message whose JSON object payload has no name binding triggers
no download, leaves the fetched list unchanged, logs nothing, and is
still acknowledged. -/
theorem missing_name_skipped (fields : List (String × Json))
    (config : Config) (env : Env) (s : HMState)
    (h : ∀ p ∈ fields, p.1 ≠ "name") :
    handle_message (Message.mk (some (Json.obj fields))) config env s
      = { s with acks := s.acks + 1 } := by
  unfold handle_message
  dsimp only
  rw [jsonGetAttr, objGet_eq_none fields "name" h]
  rfl

/-- C6 witness: the spec's example payload with only a foo field is
skipped and acknowledged. -/
theorem missing_name_skipped_witness :
    handle_message (Message.mk (some (Json.obj [("foo", Json.str "bar")])))
        cfgEx envAllOk s0
      = { s0 with acks := s0.acks + 1 } :=
  missing_name_skipped [("foo", Json.str "bar")] cfgEx envAllOk s0
    (by decide)

/-- C7: when the download of a named object raises, the handler catches
and logs it, the key is not appended to the fetched list, and the message
is still acknowledged — the loop state visible in the returned list is
unchanged. -/
theorem download_failure_isolated (fname : String) (config : Config)
    (env : Env) (s : HMState)
    (hf : fname ≠ "")
    (hdl : env.downloadOk config.gcs_bucket_name fname = false) :
    (handle_message (Message.mk (some (Json.obj [("name", Json.str fname)])))
        config env s).filesFetched = s.filesFetched ∧
    (handle_message (Message.mk (some (Json.obj [("name", Json.str fname)])))
        config env s).errorLogs = s.errorLogs + 1 ∧
    (handle_message (Message.mk (some (Json.obj [("name", Json.str fname)])))
        config env s).acks = s.acks + 1 := by
  refine ⟨?_, ?_, ?_⟩ <;>
  · simp only [handle_message, jsonGetAttr, objGet, List.foldl, truthyOpt,
      truthy, download_file, makedirs]
    simp [hf, hdl]

/-- C7 witness: a concrete failing download leaves the list unchanged,
logs one error and acks once. -/
theorem download_failure_isolated_witness :
    (handle_message
        (Message.mk (some (Json.obj [("name", Json.str "inbox/report.csv")])))
        cfgEx envNoDownload s0).filesFetched = s0.filesFetched ∧
    (handle_message
        (Message.mk (some (Json.obj [("name", Json.str "inbox/report.csv")])))
        cfgEx envNoDownload s0).errorLogs = s0.errorLogs + 1 ∧
    (handle_message
        (Message.mk (some (Json.obj [("name", Json.str "inbox/report.csv")])))
        cfgEx envNoDownload s0).acks = s0.acks + 1 :=
  download_failure_isolated "inbox/report.csv" cfgEx envNoDownload s0
    (by decide) rfl

/-- C8: download_file ensures the destination directory exists in every
case, and on success the downloaded file is at the destination directory
joined with the basename of the key. -/
theorem download_file_path_and_mkdir (bucket_name blob_name
    destination_path : String) (env : Env) (fs : FState) :
    destination_path
      ∈ (download_file bucket_name blob_name destination_path env
          fs).1.dirs ∧
    (env.downloadOk bucket_name blob_name = true →
      joinPath destination_path (basename blob_name)
        ∈ (download_file bucket_name blob_name destination_path env
            fs).1.files) := by
  constructor
  · unfold download_file makedirs
    by_cases hd : destination_path ∈ fs.dirs <;>
      cases h2 : env.downloadOk bucket_name blob_name <;> simp [hd, h2]
  · intro h
    simp [download_file, makedirs, h]

/-- C8 witness: downloading a/f.txt into /data creates /data and places
the file at /data/f.txt. -/
theorem download_file_path_and_mkdir_witness :
    "/data" ∈ (download_file "bkt" "a/f.txt" "/data" envAllOk fs0).1.dirs ∧
    (envAllOk.downloadOk "bkt" "a/f.txt" = true →
      joinPath "/data" (basename "a/f.txt")
        ∈ (download_file "bkt" "a/f.txt" "/data" envAllOk fs0).1.files) :=
  download_file_path_and_mkdir "bkt" "a/f.txt" "/data" envAllOk fs0

/-- C10: a name bound to any falsy JSON value (empty string, null, false,
zero, empty array or object) is treated like an absent field: no download
is attempted, the fetched list is unchanged, and the message is
acknowledged. -/
theorem falsy_name_skipped (v : Json) (config : Config) (env : Env)
    (s : HMState) (hv : truthy v = false) :
    handle_message (Message.mk (some (Json.obj [("name", v)]))) config env s
      = { s with acks := s.acks + 1 } := by
  unfold handle_message
  dsimp only
  rw [jsonGetAttr]
  have hget : objGet [("name", v)] "name" = some v := by
    simp [objGet]
  rw [hget]
  dsimp only [truthyOpt]
  rw [hv]
  rfl

/-- C10 witness: a name bound to the empty string is skipped and the
message acknowledged. -/
theorem falsy_name_skipped_witness :
    handle_message (Message.mk (some (Json.obj [("name", Json.str "")])))
        cfgEx envAllOk s0
      = { s0 with acks := s0.acks + 1 } :=
  falsy_name_skipped (Json.str "") cfgEx envAllOk s0 (by decide)

end GcsFetcher
